import Mathlib

/-
Verification of the minifetch presentation/classification layer.

This file shallowly embeds `src/minifetch/main.py` in Lean 4.  Python
floats are modelled as rationals (`ℚ`), Python strings as Lean `String`,
Python exceptions as an `Except PyErr` result, and the console output of
each section renderer as a structured value.  Definitions follow the
Python source line by line; the theorems at the end settle the claims
about the classifier thresholds, the filtering rules, and the driver's
error behaviour.
-/

set_option autoImplicit false

namespace Minifetch

/-! ### String helpers (Python `in` / `startswith`) -/

/-- `listStartsWith s p` is true when `p` is an initial segment of `s`. -/
def listStartsWith : List Char → List Char → Bool
  | _, [] => true
  | [], _ :: _ => false
  | a :: as, b :: bs => a == b && listStartsWith as bs

/-- `listContainsSub s sub` is true when `sub` occurs contiguously in `s`
(Python's `sub in s`). -/
def listContainsSub : List Char → List Char → Bool
  | [], sub => sub.isEmpty
  | c :: rest, sub => listStartsWith (c :: rest) sub || listContainsSub rest sub

/-- Python `s.startswith(p)`. -/
def strStartsWith (s p : String) : Bool :=
  listStartsWith s.toList p.toList

/-- Python `sub in s` (substring containment). -/
def strContains (s sub : String) : Bool :=
  listContainsSub s.toList sub.toList

/-! ### Python-level error values and primitive operations -/

/-- The Python exceptions the embedded code can raise. -/
inductive PyErr where
  | zeroDivision
  | typeError
  | keyError
  deriving DecidableEq

instance exceptDecEq {ε α : Type} [DecidableEq ε] [DecidableEq α] :
    DecidableEq (Except ε α) := fun a b =>
  match a, b with
  | .error e, .error f =>
    if h : e = f then .isTrue (congrArg Except.error h)
    else .isFalse (fun hc => h (Except.error.inj hc))
  | .error _, .ok _ => .isFalse (fun hc => Except.noConfusion hc)
  | .ok _, .error _ => .isFalse (fun hc => Except.noConfusion hc)
  | .ok x, .ok y =>
    if h : x = y then .isTrue (congrArg Except.ok h)
    else .isFalse (fun hc => h (Except.ok.inj hc))

/-- Python float division: raises `ZeroDivisionError` on a zero divisor,
otherwise exact division (floats modelled as rationals). -/
def pyDiv (a b : ℚ) : Except PyErr ℚ :=
  if b = 0 then .error .zeroDivision else .ok (a / b)

/-- Python `f"{x}"` on an optional string: `None` prints as `"None"`. -/
def pyStr : Option String → String
  | none => "None"
  | some s => s

/-- Python truthiness of an optional string (`None` and `""` are falsy). -/
def pyTruthy : Option String → Bool
  | none => false
  | some s => !(s == "")

/-- Python `x or d` on an optional string. -/
def pyOrElse (o : Option String) (d : String) : String :=
  match o with
  | none => d
  | some s => if s == "" then d else s

/-- Python dict subscript `d[k]`: raises `KeyError` when absent. -/
def dictGet {α : Type} (d : List (String × α)) (k : String) : Except PyErr α :=
  match d.find? (fun kv => kv.1 == k) with
  | some kv => .ok kv.2
  | none => .error .keyError

/-! ### Threshold classifier (`color_from_percent` and friends) -/

def THRESHOLD_GREEN : ℚ := 50
def THRESHOLD_YELLOW : ℚ := 80

/-- `color_from_percent` from the source: green below 50, yellow below 80,
red otherwise. -/
def color_from_percent (percent : ℚ) : String :=
  if percent < THRESHOLD_GREEN then "green"
  else if percent < THRESHOLD_YELLOW then "yellow"
  else "red"

/-- The spec's severity tiers. -/
inductive SeverityTier where
  | low
  | medium
  | high
  deriving DecidableEq

/-- The spec's classifier: `< 50 → Low, < 80 → Medium, else → High`
(the same threshold cascade as `color_from_percent`). -/
def classify (percent : ℚ) : SeverityTier :=
  if percent < THRESHOLD_GREEN then .low
  else if percent < THRESHOLD_YELLOW then .medium
  else .high

/-- Numeric severity rank, for stating monotonicity. -/
def tierRank : SeverityTier → ℕ
  | .low => 0
  | .medium => 1
  | .high => 2

/-- The spec's fixed tier-to-color mapping. -/
def tierColor : SeverityTier → String
  | .low => "green"
  | .medium => "yellow"
  | .high => "red"

/-- A rich `Style(color=..., bold=True)` value. -/
structure RStyle where
  color : String
  bold : Bool
  deriving DecidableEq

/-- `style_from_percent` from the source. -/
def style_from_percent (percent : ℚ) : RStyle :=
  ⟨color_from_percent percent, true⟩

/-- `style_from_value` from the source: raises `ZeroDivisionError`
("Total cannot be zero.") when `total == 0`, otherwise classifies
`value / total * 100`. -/
def style_from_value (value total : ℚ) : Except PyErr RStyle :=
  if total = 0 then .error .zeroDivision
  else do
    let q ← pyDiv value total
    .ok (style_from_percent (q * 100))

/-- `color_from_value` from the source: no explicit guard, but Python float
division itself raises `ZeroDivisionError` when `total == 0`. -/
def color_from_value (value total : ℚ) : Except PyErr String := do
  let q ← pyDiv value total
  .ok (color_from_percent (q * 100))

/-! ### Logged-in users (`show_logged_in_user`) -/

/-- One `psutil` user session (`name`, `terminal`, `host` may be `None`,
`started` is an epoch timestamp or `None`). -/
structure UserSession where
  name : Option String
  terminal : Option String
  host : Option String
  started : Option ℚ
  deriving DecidableEq

/-- `started_text`: empty when the start time is unknown, otherwise
`humanize.naturaltime(now - started)` (the formatter is a parameter). -/
def startedText (naturaltime : ℚ → String) (now : ℚ) : Option ℚ → String
  | none => ""
  | some s => naturaltime (now - s)

/-- One table row of the multi-user table: `user_name or ""`,
`user_terminal or ""`, `user_host or ""`, duration text. -/
structure UserRow where
  user : String
  terminal : String
  host : String
  duration : String
  deriving DecidableEq

/-- The row the source adds for one user of the multi-user table. -/
def userRow (naturaltime : ℚ → String) (now : ℚ) (u : UserSession) : UserRow :=
  ⟨pyOrElse u.name "", pyOrElse u.terminal "", pyOrElse u.host "",
   startedText naturaltime now u.started⟩

/-- The single-user summary line: with a truthy host,
`"{name} on {terminal} from {host} for {started}"`, otherwise
`"{name} on {terminal or 'console'} for {started}"`. -/
def userLine (naturaltime : ℚ → String) (now : ℚ) (u : UserSession) : String :=
  if pyTruthy u.host then
    pyStr u.name ++ " on " ++ pyStr u.terminal ++ " from " ++ pyStr u.host
      ++ " for " ++ startedText naturaltime now u.started
  else
    pyStr u.name ++ " on " ++ pyOrElse u.terminal "console"
      ++ " for " ++ startedText naturaltime now u.started

/-- What `show_logged_in_user` prints: a notice, a single summary line, or a
table of rows. -/
inductive UsersOutput where
  | notice (msg : String)
  | single (line : String)
  | table (rows : List UserRow)
  deriving DecidableEq

/-- `show_logged_in_user` from the source: no users → notice; more than one
user → table with one row per user; exactly one user → summary line. -/
def show_logged_in_user (naturaltime : ℚ → String) (now : ℚ) :
    List UserSession → UsersOutput
  | [] => .notice "No users logged in."
  | [u] => .single (userLine naturaltime now u)
  | u :: v :: rest => .table ((u :: v :: rest).map (userRow naturaltime now))

/-! ### CPU (`show_cpu`) -/

/-- `cpu_count = psutil.cpu_count(); if not cpu_count: cpu_count = 1` —
`None` and `0` are both falsy in Python. -/
def effectiveCpuCount : Option ℕ → ℕ
  | none => 1
  | some n => if n = 0 then 1 else n

/-- One per-core gauge row: index, percent, gauge color. -/
structure CoreRow where
  index : ℕ
  percent : ℚ
  color : String
  deriving DecidableEq

/-- The per-core gauge rows (`for i, percent in enumerate(cpu_percentages)`). -/
def coreRows (percents : List ℚ) : List CoreRow :=
  percents.enum.map (fun ip => ⟨ip.1, ip.2, color_from_percent ip.2⟩)

/-- The load-average row: three normalized values with their styles. -/
structure LoadAvgRow where
  v1 : ℚ
  v5 : ℚ
  v15 : ℚ
  s1 : RStyle
  s5 : RStyle
  s15 : RStyle
  deriving DecidableEq

/-- What `show_cpu` prints: the gauges table always, the load-average table
only when it is not skipped. -/
structure CpuOutput where
  cores : List CoreRow
  loadavg : Option LoadAvgRow
  deriving DecidableEq

/-- `show_cpu` from the source: normalize each load average by the (fallback
corrected) core count, render the per-core gauges, then return before the
load-average table exactly when `platform.system() == "Windows"`. -/
def show_cpu (sys : String) (cpu_count : Option ℕ) (la1 la5 la15 : ℚ)
    (percents : List ℚ) : Except PyErr CpuOutput := do
  let n := effectiveCpuCount cpu_count
  let l1 ← pyDiv la1 (n : ℚ)
  let l5 ← pyDiv la5 (n : ℚ)
  let l15 ← pyDiv la15 (n : ℚ)
  let cores := coreRows percents
  if sys == "Windows" then
    return ⟨cores, none⟩
  let s1 ← style_from_value l1 1
  let s5 ← style_from_value l5 1
  let s15 ← style_from_value l15 1
  return ⟨cores, some ⟨l1, l5, l15, s1, s5, s15⟩⟩

/-- Modelled from the spec: the platforms on which the underlying OS does not
expose a load-average primitive.  Among the `platform.system()` values the
metrics provider supports, Windows is the only such platform (its load
average is emulated, not an OS primitive). -/
def osLacksLoadAvgPrimitive (sys : String) : Bool :=
  sys == "Windows"

/-! ### Memory (`show_memory`) -/

/-- `psutil` memory statistics (used/total bytes and percent). -/
structure MemStats where
  used : ℕ
  total : ℕ
  percent : ℚ
  deriving DecidableEq

/-- The RAM text line of the memory panel. -/
def ramTextOf (naturalsize : ℕ → String) (vmem : MemStats) : String :=
  "RAM: " ++ naturalsize vmem.used ++ " / " ++ naturalsize vmem.total

/-- The swap text element of the memory panel:
`Text(f"Swap: {used} / {total}" if smem.total else "")` — when the swap
total is 0 the element is still built, with empty content. -/
def swapTextOf (naturalsize : ℕ → String) (smem : MemStats) : String :=
  if smem.total ≠ 0 then
    "Swap: " ++ naturalsize smem.used ++ " / " ++ naturalsize smem.total
  else ""

/-- The text elements of the memory panel's `Group`, in order, below the
gauge table. -/
def memoryGroupTexts (naturalsize : ℕ → String) (vmem smem : MemStats) :
    List String :=
  [ramTextOf naturalsize vmem, swapTextOf naturalsize smem]

/-- What `show_memory` prints: the two gauge rows and the text lines. -/
structure MemoryOutput where
  ramPercent : ℚ
  ramColor : String
  swapPercent : ℚ
  swapColor : String
  texts : List String
  deriving DecidableEq

/-- `show_memory` from the source. -/
def show_memory (naturalsize : ℕ → String) (vmem smem : MemStats) :
    MemoryOutput :=
  ⟨vmem.percent, color_from_percent vmem.percent,
   smem.percent, color_from_percent smem.percent,
   memoryGroupTexts naturalsize vmem smem⟩

/-! ### Disk (`show_disk`) -/

/-- One `psutil` disk partition. -/
structure DiskPartition where
  device : String
  mountpoint : String
  fstype : String
  opts : String
  deriving DecidableEq

/-- `psutil.disk_usage` result. -/
structure DiskUsage where
  used : ℕ
  total : ℕ
  percent : ℚ
  deriving DecidableEq

/-- One rendered disk row. -/
structure DiskRow where
  label : String
  percent : ℚ
  color : String
  usageText : String
  deriving DecidableEq

/-- The row the source adds for one surviving partition. -/
def diskRow (naturalsize : ℕ → String) (disk_usage : String → DiskUsage)
    (p : DiskPartition) : DiskRow :=
  let u := disk_usage p.mountpoint
  ⟨if p.device ≠ p.mountpoint then p.device ++ " on " ++ p.mountpoint
    else p.device,
   u.percent, color_from_percent u.percent,
   naturalsize u.used ++ " / " ++ naturalsize u.total⟩

/-- The partition loop of `show_disk`, with its three sequential `continue`
guards. -/
def diskRows (naturalsize : ℕ → String) (disk_usage : String → DiskUsage) :
    List DiskPartition → List DiskRow
  | [] => []
  | p :: ps =>
    if strContains p.mountpoint "loop" then
      diskRows naturalsize disk_usage ps
    else if p.fstype == "" then
      diskRows naturalsize disk_usage ps
    else if strContains p.opts "dontbrowse"
        && !strStartsWith p.mountpoint "/System/Volumes/Data" then
      diskRows naturalsize disk_usage ps
    else
      diskRow naturalsize disk_usage p :: diskRows naturalsize disk_usage ps

/-- The spec's disk-partition exclusion rule, written as one predicate:
mount point contains a loop-device segment, or the filesystem type is
empty, or the options contain `dontbrowse` and the mount point does not
start with `/System/Volumes/Data`. -/
def diskPartitionExcludedSpec (p : DiskPartition) : Bool :=
  strContains p.mountpoint "loop" || p.fstype == ""
    || (strContains p.opts "dontbrowse"
        && !strStartsWith p.mountpoint "/System/Volumes/Data")

/-! ### Network interfaces (`show_network_interfaces`) -/

/-- Address families the source distinguishes. -/
inductive AddrFamily where
  | afInet
  | afInet6
  | afLink
  deriving BEq, DecidableEq

/-- One `psutil` interface address; `ptp` is the truthiness of the
point-to-point field. -/
structure SnicAddr where
  family : AddrFamily
  address : String
  ptp : Bool
  deriving DecidableEq

/-- `psutil` per-interface stats. -/
structure SnicStats where
  isup : Bool
  speed : ℕ
  deriving DecidableEq

/-- One rendered interface row. -/
structure NicRow where
  name : String
  addressesText : String
  speedText : String
  vpnText : String
  deriving DecidableEq

/-- The body of the interface loop for one `(nic, addrs)` pair.  The Python
guard `nic.startswith("lo") or not addrs or not if_stats[nic].isup`
short-circuits, so the (possibly `KeyError`-raising) stats lookup only
happens when the first two tests fail. -/
def nicEntry (stats : List (String × SnicStats)) (nic : String)
    (addrs : List SnicAddr) : Except PyErr (Option NicRow) :=
  if strStartsWith nic "lo" || addrs.isEmpty then
    .ok none
  else do
    let st ← dictGet stats nic
    if !st.isup then
      .ok none
    else
      let addresses := addrs.filter (fun a => a.family == AddrFamily.afInet)
      if addresses.isEmpty then
        .ok none
      else
        .ok (some ⟨nic,
          String.intercalate "\n" (addresses.map (fun a => a.address)),
          if st.speed ≠ 0 then toString st.speed ++ " Mbps" else "",
          if addrs.any (fun a => a.ptp) then ":closed_lock_with_key:" else ""⟩)

/-- The full interface loop of `show_network_interfaces`. -/
def nicRows (stats : List (String × SnicStats)) :
    List (String × List SnicAddr) → Except PyErr (List NicRow)
  | [] => .ok []
  | (nic, addrs) :: rest => do
    let r ← nicEntry stats nic addrs
    let tail ← nicRows stats rest
    match r with
    | none => .ok tail
    | some row => .ok (row :: tail)

/-! ### Network statistics (`show_network_statistics`) -/

/-- `psutil` per-interface cumulative counters. -/
structure NetCounters where
  bytes_sent : ℕ
  bytes_recv : ℕ
  deriving DecidableEq

/-- The loop of `show_network_statistics`.  The Python `if not stats` test is
always false for the eight-field `snetio` namedtuple and is not modelled. -/
def netStatRows : List (String × NetCounters) → List (String × ℕ × ℕ)
  | [] => []
  | (nic, st) :: rest =>
    if strStartsWith nic "lo" then netStatRows rest
    else if st.bytes_sent = 0 && st.bytes_recv = 0 then netStatRows rest
    else if st.bytes_sent ≤ 0 && st.bytes_recv ≤ 0 then netStatRows rest
    else (nic, st.bytes_sent, st.bytes_recv) :: netStatRows rest

/-! ### Temperatures (`show_temperatures`) -/

/-- One `psutil` temperature reading. -/
structure TempEntry where
  label : String
  current : Option ℚ
  critical : Option ℚ
  deriving DecidableEq

/-- The style of one temperature cell:
`style_from_value(entry.current, entry.critical or 100)`.  Python's `or`
treats both `None` and `0.0` as falsy, so the total is never 0; when
`entry.current` is `None` the division inside `style_from_value` raises
`TypeError`. -/
def temp_value_style (current : Option ℚ) (critical : Option ℚ) :
    Except PyErr RStyle :=
  let total : ℚ :=
    match critical with
    | none => 100
    | some c => if c = 0 then 100 else c
  match current with
  | none => .error .typeError
  | some c => style_from_value c total

/-- The inner entry loop of `show_temperatures`: the cell style is computed
before the `entry.current is None` check, so a `None` reading raises rather
than being skipped. -/
def tempEntriesRows (name : String) :
    List TempEntry → Except PyErr (List (String × ℚ × RStyle))
  | [] => .ok []
  | e :: es => do
    let st ← temp_value_style e.current e.critical
    match e.current with
    | none => tempEntriesRows name es
    | some c => do
      let rest ← tempEntriesRows name es
      .ok ((name, c, st) :: rest)

/-- The outer sensor-group loop of `show_temperatures`.  The source also
rebinds `temps` to a filtered list here, but never uses it. -/
def tempGroups : List (String × List TempEntry) →
    Except PyErr (List (String × ℚ × RStyle))
  | [] => .ok []
  | (name, entries) :: rest => do
    let rows ← tempEntriesRows name entries
    let more ← tempGroups rest
    .ok (rows ++ more)

/-- What `show_temperatures` prints. -/
inductive TempsOutput where
  | unsupported (msg : String)
  | empty (msg : String)
  | table (rows : List (String × ℚ × RStyle))
  deriving DecidableEq

/-- `show_temperatures` from the source: capability check, empty-data check,
then the table. -/
def show_temperatures (supported : Bool)
    (temps : List (String × List TempEntry)) : Except PyErr TempsOutput :=
  if !supported then
    .ok (.unsupported "Temperature sensors are not supported on this system.")
  else if temps.isEmpty then
    .ok (.empty "No temperature data available.")
  else do
    let rows ← tempGroups temps
    .ok (.table rows)

/-! ### Environment and report driver (`main`) -/

/-- The metrics provider and formatting collaborators, one snapshot per run. -/
structure Env where
  hostname : String
  os_name : String
  os_version : String
  os_arch : String
  users : List UserSession
  boot_time : ℚ
  now : ℚ
  platform_system : String
  cpu_count : Option ℕ
  loadavg1 : ℚ
  loadavg5 : ℚ
  loadavg15 : ℚ
  cpu_percents : List ℚ
  vmem : MemStats
  smem : MemStats
  partitions : List DiskPartition
  disk_usage : String → DiskUsage
  if_addrs : List (String × List SnicAddr)
  if_stats : List (String × SnicStats)
  netCounters : List (String × NetCounters)
  sensors_supported : Bool
  temps : List (String × List TempEntry)
  figlet : String → String
  naturalsize : ℕ → String
  naturaltime : ℚ → String
  precisedelta : ℚ → String

def show_hostnameE (env : Env) : String :=
  env.figlet env.hostname

def show_osE (env : Env) : String :=
  env.os_name ++ " " ++ env.os_version ++ " (" ++ env.os_arch ++ ")"

def show_logged_in_userE (env : Env) : UsersOutput :=
  show_logged_in_user env.naturaltime env.now env.users

def show_uptimeE (env : Env) : String :=
  "System is up " ++ env.precisedelta (env.now - env.boot_time)

def show_cpuE (env : Env) : Except PyErr CpuOutput :=
  show_cpu env.platform_system env.cpu_count env.loadavg1 env.loadavg5
    env.loadavg15 env.cpu_percents

def show_memoryE (env : Env) : MemoryOutput :=
  show_memory env.naturalsize env.vmem env.smem

def show_diskE (env : Env) : List DiskRow :=
  diskRows env.naturalsize env.disk_usage env.partitions

def show_network_interfacesE (env : Env) : Except PyErr (List NicRow) :=
  nicRows env.if_stats env.if_addrs

def show_network_statisticsE (env : Env) : List (String × ℕ × ℕ) :=
  netStatRows env.netCounters

def show_temperaturesE (env : Env) : Except PyErr TempsOutput :=
  show_temperatures env.sensors_supported env.temps

/-- The report sections, in the fixed order `main` runs them. -/
inductive SectionTag where
  | hostname
  | os
  | users
  | uptime
  | cpu
  | memory
  | disk
  | netifs
  | netstats
  | temps
  deriving DecidableEq

/-- `main` from the source: it invokes the renderers in fixed order with no
error handling of its own, so an exception in one renderer propagates and
the later sections never run. -/
def mainE (env : Env) : Except PyErr (List SectionTag) := do
  let _banner := show_hostnameE env
  let _os := show_osE env
  let _users := show_logged_in_userE env
  let _up := show_uptimeE env
  let _cpu ← show_cpuE env
  let _mem := show_memoryE env
  let _disk := show_diskE env
  let _nics ← show_network_interfacesE env
  let _nstats := show_network_statisticsE env
  let _temps ← show_temperaturesE env
  .ok [SectionTag.hostname, .os, .users, .uptime, .cpu, .memory, .disk,
       .netifs, .netstats, .temps]

/-! ### Concrete inputs used by the witnesses and counterexamples -/

/-- A concrete environment whose interface map lists `eth0` with one IPv4
address while the stats map is empty, so the `if_stats[nic]` lookup raises
`KeyError` inside `show_network_interfaces`. -/
def env0 : Env where
  hostname := "box"
  os_name := "Linux"
  os_version := "6.1"
  os_arch := "x86_64"
  users := []
  boot_time := 0
  now := 10
  platform_system := "Linux"
  cpu_count := some 1
  loadavg1 := 0
  loadavg5 := 0
  loadavg15 := 0
  cpu_percents := []
  vmem := ⟨1, 2, 50⟩
  smem := ⟨0, 0, 0⟩
  partitions := []
  disk_usage := fun _ => ⟨0, 1, 0⟩
  if_addrs := [("eth0", [⟨AddrFamily.afInet, "10.0.0.1", false⟩])]
  if_stats := []
  netCounters := []
  sensors_supported := false
  temps := []
  figlet := fun s => s
  naturalsize := fun n => toString n
  naturaltime := fun _ => "just now"
  precisedelta := fun _ => "1 minute"

/-- A concrete byte formatter for the memory counterexample. -/
def ns0 : ℕ → String := fun n => toString n

/-- Concrete interface inputs for the network-filter witness. -/
def netStats1 : List (String × SnicStats) := [("eth0", ⟨true, 1000⟩)]

def netAddrs1 : List SnicAddr := [⟨AddrFamily.afInet, "10.0.0.1", true⟩]

/-- The `CpuOutput` that `show_cpuE` produces on `env0`. -/
def cpuOut0 : CpuOutput :=
  ⟨[], some ⟨0, 0, 0, ⟨"green", true⟩, ⟨"green", true⟩, ⟨"green", true⟩⟩⟩

/-- Concrete user sessions for the logged-in-users witness. -/
def user1 : UserSession := ⟨some "alice", some "tty1", none, none⟩

def user2 : UserSession := ⟨some "bob", none, some "10.0.0.2", some 5⟩

/-! ## Helper lemmas -/

theorem exceptBind_ok {α β : Type} (a : α) (f : α → Except PyErr β) :
    (Except.ok a >>= f) = f a := rfl

theorem exceptBind_error {α β : Type} (e : PyErr) (f : α → Except PyErr β) :
    ((Except.error e : Except PyErr α) >>= f) = Except.error e := rfl

theorem pyOrElse_of_falsy (o : Option String) (d : String)
    (h : pyTruthy o = false) : pyOrElse o d = d := by
  cases o with
  | none => rfl
  | some s =>
    simp [pyTruthy] at h
    simp [pyOrElse, h]

theorem effectiveCpuCount_pos (c : Option ℕ) : 0 < effectiveCpuCount c := by
  cases c with
  | none => simp [effectiveCpuCount]
  | some n =>
    by_cases h : n = 0
    · simp [effectiveCpuCount, h]
    · simp only [effectiveCpuCount, if_neg h]
      omega

/-- `show_cpu` never raises: the normalizing divisor is at least 1 and the
load-average styles are ratios against the nonzero total 1. -/
theorem show_cpu_never_fails (sys : String) (c : Option ℕ) (la1 la5 la15 : ℚ)
    (ps : List ℚ) :
    ∃ out : CpuOutput, show_cpu sys c la1 la5 la15 ps = Except.ok out
      ∧ out.cores = coreRows ps
      ∧ (out.loadavg = none ↔ (sys == "Windows") = true) := by
  have h0 : ((effectiveCpuCount c : ℕ) : ℚ) ≠ 0 :=
    Nat.cast_ne_zero.mpr (Nat.pos_iff_ne_zero.mp (effectiveCpuCount_pos c))
  by_cases hw : (sys == "Windows") = true
  · refine ⟨⟨coreRows ps, none⟩, ?_, rfl, by simp [hw]⟩
    simp [show_cpu, pyDiv, h0, exceptBind_ok, hw]
  · refine ⟨⟨coreRows ps, some ⟨la1 / (effectiveCpuCount c : ℚ),
      la5 / (effectiveCpuCount c : ℚ), la15 / (effectiveCpuCount c : ℚ),
      style_from_percent (la1 / (effectiveCpuCount c : ℚ) / 1 * 100),
      style_from_percent (la5 / (effectiveCpuCount c : ℚ) / 1 * 100),
      style_from_percent (la15 / (effectiveCpuCount c : ℚ) / 1 * 100)⟩⟩,
      ?_, rfl, by simp [hw]⟩
    simp [show_cpu, pyDiv, h0, exceptBind_ok, hw, style_from_value]

/-! ## Claims -/

/-- C1: the threshold classifier is monotonic non-decreasing in severity as
the percentage increases; `classify(49.9) = Low`, `classify(50) = Medium`,
`classify(79.9) = Medium`, `classify(80) = High`; the display color is the
tier's color, and the tiers are exactly the half-open bands
`p < 50`, `50 ≤ p < 80`, `80 ≤ p`. -/
theorem classify_monotone_and_boundaries :
    (∀ p q : ℚ, p ≤ q → tierRank (classify p) ≤ tierRank (classify q))
    ∧ classify (499/10) = SeverityTier.low
    ∧ classify 50 = SeverityTier.medium
    ∧ classify (799/10) = SeverityTier.medium
    ∧ classify 80 = SeverityTier.high
    ∧ (∀ p : ℚ, color_from_percent p = tierColor (classify p))
    ∧ (∀ p : ℚ,
        (classify p = SeverityTier.low ↔ p < 50)
        ∧ (classify p = SeverityTier.medium ↔ 50 ≤ p ∧ p < 80)
        ∧ (classify p = SeverityTier.high ↔ 80 ≤ p)) := by
  refine ⟨?_, ?_, ?_, ?_, ?_, ?_, ?_⟩
  · intro p q hpq
    unfold classify THRESHOLD_GREEN THRESHOLD_YELLOW
    split_ifs <;> simp [tierRank] <;> linarith
  · norm_num [classify, THRESHOLD_GREEN, THRESHOLD_YELLOW]
  · norm_num [classify, THRESHOLD_GREEN, THRESHOLD_YELLOW]
  · norm_num [classify, THRESHOLD_GREEN, THRESHOLD_YELLOW]
  · norm_num [classify, THRESHOLD_GREEN, THRESHOLD_YELLOW]
  · intro p
    unfold color_from_percent classify
    split_ifs <;> rfl
  · intro p
    unfold classify THRESHOLD_GREEN THRESHOLD_YELLOW
    split_ifs with h1 h2
    · exact ⟨⟨fun _ => h1, fun _ => rfl⟩,
        ⟨fun h => (nomatch h), fun h => absurd h.1 (not_le.mpr h1)⟩,
        ⟨fun h => (nomatch h), fun h => absurd h (not_le.mpr (h1.trans (by norm_num)))⟩⟩
    · exact ⟨⟨fun h => (nomatch h), fun h => absurd h h1⟩,
        ⟨fun _ => ⟨not_lt.mp h1, h2⟩, fun _ => rfl⟩,
        ⟨fun h => (nomatch h), fun h => absurd h2 (not_lt.mpr h)⟩⟩
    · exact ⟨⟨fun h => (nomatch h), fun h => absurd h h1⟩,
        ⟨fun h => (nomatch h), fun h => absurd h.2 h2⟩,
        ⟨fun _ => not_lt.mp h2, fun _ => rfl⟩⟩

/-- C1 witness: the monotonicity part applied at `3 ≤ 60`. -/
theorem classify_monotone_and_boundaries_witness :
    (3:ℚ) ≤ 60 ∧ tierRank (classify 3) ≤ tierRank (classify 60) :=
  ⟨by norm_num, classify_monotone_and_boundaries.1 3 60 (by norm_num)⟩

/-- C2: classifying a ratio against a total of exactly 0 fails with a
divide-by-zero error in both entry points: `style_from_value` raises
explicitly, `color_from_value` through Python float division itself. -/
theorem ratio_classify_zero_total_errors :
    ∀ value : ℚ,
      style_from_value value 0 = Except.error PyErr.zeroDivision
      ∧ color_from_value value 0 = Except.error PyErr.zeroDivision := by
  intro v
  constructor
  · rfl
  · rfl

/-- C3: the disk loop renders exactly the partitions the exclusion predicate
admits (mount point containing "loop", empty filesystem type, or a
`dontbrowse` option outside `/System/Volumes/Data`, exclude; all others
render), with the claim's four boundary examples. -/
theorem disk_filter_spec :
    (∀ (naturalsize : ℕ → String) (disk_usage : String → DiskUsage)
        (ps : List DiskPartition),
        diskRows naturalsize disk_usage ps
          = (ps.filter (fun p => !diskPartitionExcludedSpec p)).map
              (diskRow naturalsize disk_usage))
    ∧ diskPartitionExcludedSpec ⟨"/dev/sda1", "/mnt/loop0", "ext4", "rw"⟩ = true
    ∧ diskPartitionExcludedSpec ⟨"/dev/sda1", "/mnt/data", "", "rw"⟩ = true
    ∧ diskPartitionExcludedSpec
        ⟨"/dev/disk1s1", "/System/Volumes/Data/home", "apfs", "rw,dontbrowse"⟩
        = false
    ∧ diskPartitionExcludedSpec
        ⟨"/dev/disk1s2", "/Volumes/Other", "apfs", "rw,dontbrowse"⟩ = true
    ∧ (∀ p : DiskPartition,
        diskPartitionExcludedSpec p = false
          ↔ (strContains p.mountpoint "loop" = false ∧ p.fstype ≠ ""
              ∧ (strContains p.opts "dontbrowse" = false
                  ∨ strStartsWith p.mountpoint "/System/Volumes/Data" = true))) := by
  refine ⟨?_, by decide, by decide, by decide, by decide, ?_⟩
  · intro ns du ps
    induction ps with
    | nil => rfl
    | cons p ps ih =>
      cases hA : strContains p.mountpoint "loop" with
      | true =>
        simp [diskRows, hA, diskPartitionExcludedSpec, List.filter_cons, ih]
      | false =>
        cases hB : p.fstype == "" with
        | true =>
          simp [diskRows, hA, hB, diskPartitionExcludedSpec, List.filter_cons, ih]
        | false =>
          cases hC : strContains p.opts "dontbrowse" <;>
            cases hD : strStartsWith p.mountpoint "/System/Volumes/Data" <;>
            simp [diskRows, hA, hB, hC, hD, diskPartitionExcludedSpec,
              List.filter_cons, ih]
  · intro p
    by_cases hB : p.fstype = "" <;>
      cases hA : strContains p.mountpoint "loop" <;>
      cases hC : strContains p.opts "dontbrowse" <;>
      cases hD : strStartsWith p.mountpoint "/System/Volumes/Data" <;>
      simp [diskPartitionExcludedSpec, hA, hB, hC, hD]

/-- C4: the interface loop excludes loopback-named interfaces regardless of
state, interfaces with no addresses, administratively down interfaces, and
interfaces with no IPv4 address; a surviving row carries the VPN lock
exactly when some address has the point-to-point flag, and a speed text
exactly when the reported speed is nonzero. -/
theorem nic_filter_spec :
    (∀ (stats : List (String × SnicStats)) (nic : String)
        (addrs : List SnicAddr), strStartsWith nic "lo" = true →
        nicEntry stats nic addrs = Except.ok none)
    ∧ (∀ (stats : List (String × SnicStats)) (nic : String),
        nicEntry stats nic [] = Except.ok none)
    ∧ (∀ (stats : List (String × SnicStats)) (nic : String)
        (addrs : List SnicAddr) (st : SnicStats),
        dictGet stats nic = Except.ok st →
        strStartsWith nic "lo" = false → addrs ≠ [] →
        ((st.isup = false
            ∨ addrs.filter (fun a => a.family == AddrFamily.afInet) = []) →
          nicEntry stats nic addrs = Except.ok none)
        ∧ (st.isup = true →
            addrs.filter (fun a => a.family == AddrFamily.afInet) ≠ [] →
            ∃ row, nicEntry stats nic addrs = Except.ok (some row)
              ∧ (row.vpnText = ":closed_lock_with_key:"
                  ↔ addrs.any (fun a => a.ptp) = true)
              ∧ (st.speed = 0 → row.speedText = "")
              ∧ (st.speed ≠ 0 →
                  row.speedText = toString st.speed ++ " Mbps"))) := by
  refine ⟨?_, ?_, ?_⟩
  · intro stats nic addrs hlo
    simp [nicEntry, hlo]
  · intro stats nic
    simp [nicEntry]
  · intro stats nic addrs st hget hlo hne
    have hne' : addrs.isEmpty = false := by
      cases addrs with
      | nil => exact absurd rfl hne
      | cons a t => rfl
    constructor
    · rintro (hdown | hfil)
      · simp [nicEntry, hlo, hne', hget, exceptBind_ok, hdown]
      · cases hup : st.isup with
        | false => simp [nicEntry, hlo, hne', hget, exceptBind_ok, hup]
        | true => simp [nicEntry, hlo, hne', hget, exceptBind_ok, hup, hfil]
    · intro hup hfil
      have hfil' :
          (addrs.filter (fun a => a.family == AddrFamily.afInet)).isEmpty
            = false := by
        cases hx : addrs.filter (fun a => a.family == AddrFamily.afInet) with
        | nil => exact absurd hx hfil
        | cons a t => simp [hx]
      refine ⟨⟨nic,
        String.intercalate "\n"
          ((addrs.filter (fun a => a.family == AddrFamily.afInet)).map
            (fun a => a.address)),
        if st.speed ≠ 0 then toString st.speed ++ " Mbps" else "",
        if addrs.any (fun a => a.ptp) then ":closed_lock_with_key:" else ""⟩,
        ?_, ?_, ?_, ?_⟩
      · simp [nicEntry, hlo, hne', hget, exceptBind_ok, hup, hfil']
      · cases hany : addrs.any (fun a => a.ptp) with
        | false =>
          simp only [hany, if_false, Bool.false_eq_true, iff_false]
          intro hcontra
          exact absurd hcontra (by decide)
        | true => simp [hany]
      · intro h
        simp [h]
      · intro h
        simp [h]

/-- C4 witness: a live `eth0` with one point-to-point IPv4 address and a
1000 Mbps link produces a row with the VPN lock and the speed text. -/
theorem nic_filter_spec_witness :
    ∃ row, nicEntry netStats1 "eth0" netAddrs1 = Except.ok (some row)
      ∧ (row.vpnText = ":closed_lock_with_key:"
          ↔ netAddrs1.any (fun a => a.ptp) = true)
      ∧ ((⟨true, 1000⟩ : SnicStats).speed = 0 → row.speedText = "")
      ∧ ((⟨true, 1000⟩ : SnicStats).speed ≠ 0 →
          row.speedText = toString (⟨true, 1000⟩ : SnicStats).speed ++ " Mbps") :=
  ((nic_filter_spec.2.2 netStats1 "eth0" netAddrs1 ⟨true, 1000⟩ (by decide)
      (by decide) (by decide)).2 (by decide) (by decide))

/-- C5 counterexample: with total swap 0 the memory panel's `Group` still
contains a second text element — built from
`Text(f"Swap: ..." if smem.total else "")` — with empty content, i.e. an
empty line, rather than nothing being emitted for the swap line. -/
theorem swap_line_counterexample :
    memoryGroupTexts ns0 ⟨1, 2, 50⟩ ⟨0, 0, 0⟩ = [ramTextOf ns0 ⟨1, 2, 50⟩, ""]
    ∧ (memoryGroupTexts ns0 ⟨1, 2, 50⟩ ⟨0, 0, 0⟩).length ≠ 1 := by
  constructor
  · rfl
  · decide

/-- C5 amended: the renderer always emits the swap text element; its content
is empty exactly when total swap is 0, and is the `"Swap: used / total"`
line (even when used is 0) whenever total swap is nonzero. -/
theorem swap_line_amended :
    ∀ (naturalsize : ℕ → String) (vmem smem : MemStats),
      (memoryGroupTexts naturalsize vmem smem).length = 2
      ∧ (smem.total = 0 → swapTextOf naturalsize smem = "")
      ∧ (smem.total ≠ 0 → swapTextOf naturalsize smem
            = "Swap: " ++ naturalsize smem.used ++ " / "
              ++ naturalsize smem.total)
      ∧ (show_memory naturalsize vmem smem).texts
          = memoryGroupTexts naturalsize vmem smem := by
  intro ns vm sm
  refine ⟨rfl, ?_, ?_, rfl⟩
  · intro h
    simp [swapTextOf, h]
  · intro h
    simp [swapTextOf, h]

/-- C5 witness: the amended statement applied at swap totals 0 and 4
(the latter with used 0). -/
theorem swap_line_amended_witness :
    swapTextOf ns0 ⟨0, 0, 0⟩ = ""
    ∧ swapTextOf ns0 ⟨0, 4, 0⟩ = "Swap: " ++ ns0 0 ++ " / " ++ ns0 4 :=
  ⟨(swap_line_amended ns0 ⟨1, 2, 50⟩ ⟨0, 0, 0⟩).2.1 rfl,
   (swap_line_amended ns0 ⟨1, 2, 50⟩ ⟨0, 4, 0⟩).2.2.1 (by decide)⟩

/-- C6 (code bug): the temperature renderer does not skip a reading lacking a
current value — the cell style `style_from_value(entry.current,
entry.critical or 100)` is computed before the `is None` guard and raises a
`TypeError`; a reading with a current value is colored by the ratio of
current to the critical-or-100 total. -/
theorem temperatures_none_current_raises :
    show_temperatures true [("chip", [⟨"Sensor 1", none, none⟩])]
        = Except.error PyErr.typeError
    ∧ tempEntriesRows "chip" [⟨"Sensor 1", none, none⟩]
        = Except.error PyErr.typeError
    ∧ tempEntriesRows "chip" [⟨"Sensor 1", some 42, none⟩]
        = Except.ok [("chip", 42, ⟨"green", true⟩)] := by
  refine ⟨rfl, rfl, ?_⟩
  norm_num [tempEntriesRows, temp_value_style, style_from_value, pyDiv,
    style_from_percent, color_from_percent, THRESHOLD_GREEN, THRESHOLD_YELLOW,
    exceptBind_ok]

/-- C7: the load-average section is omitted exactly on the platform whose OS
exposes no load-average primitive (Windows), while the per-core gauges are
always rendered, and the CPU renderer itself never fails. -/
theorem load_average_platform_spec :
    (∀ env : Env, ∃ out, show_cpuE env = Except.ok out)
    ∧ (∀ (env : Env) (out : CpuOutput), show_cpuE env = Except.ok out →
        out.cores = coreRows env.cpu_percents
        ∧ (out.loadavg = none
            ↔ osLacksLoadAvgPrimitive env.platform_system = true)) := by
  constructor
  · intro env
    obtain ⟨out, h, -, -⟩ := show_cpu_never_fails env.platform_system
      env.cpu_count env.loadavg1 env.loadavg5 env.loadavg15 env.cpu_percents
    exact ⟨out, h⟩
  · intro env out h
    obtain ⟨out', h', hc, hl⟩ := show_cpu_never_fails env.platform_system
      env.cpu_count env.loadavg1 env.loadavg5 env.loadavg15 env.cpu_percents
    unfold show_cpuE at h
    have heq : out' = out := Except.ok.inj (h'.symm.trans h)
    subst heq
    exact ⟨hc, hl⟩

/-- C7 witness: on the Linux environment `env0` the gauges are rendered and
the load-average section is present. -/
theorem load_average_platform_spec_witness :
    cpuOut0.cores = coreRows env0.cpu_percents
    ∧ (cpuOut0.loadavg = none
        ↔ osLacksLoadAvgPrimitive env0.platform_system = true) :=
  load_average_platform_spec.2 env0 cpuOut0 (by
    norm_num [show_cpuE, env0, show_cpu, cpuOut0, effectiveCpuCount, pyDiv,
      exceptBind_ok, style_from_value, style_from_percent, color_from_percent,
      THRESHOLD_GREEN, THRESHOLD_YELLOW, coreRows]
    exact fun h => absurd h (by decide))

/-- C8 counterexample: on `env0` — whose interface map lists `eth0` with an
IPv4 address while the stats map is missing it — the network-interface
renderer raises `KeyError` and `main`, having no error handling, propagates
it: the report aborts instead of degrading and the remaining sections are
never produced. -/
theorem driver_no_isolation_counterexample :
    mainE env0 = Except.error PyErr.keyError
    ∧ ∀ out, mainE env0 ≠ Except.ok out := by
  have hcpu : show_cpuE env0 = Except.ok cpuOut0 := by
    norm_num [show_cpuE, env0, show_cpu, cpuOut0, effectiveCpuCount, pyDiv,
      exceptBind_ok, style_from_value, style_from_percent, color_from_percent,
      THRESHOLD_GREEN, THRESHOLD_YELLOW, coreRows]
    exact fun h => absurd h (by decide)
  have hnet : show_network_interfacesE env0 = Except.error PyErr.keyError := by
    decide
  have hmain : mainE env0 = Except.error PyErr.keyError := by
    simp only [mainE, hcpu, exceptBind_ok, hnet, exceptBind_error]
  exact ⟨hmain, fun out h => Except.noConfusion (hmain.symm.trans h)⟩

/-- C8 amended: the driver has no per-renderer error handling; only the
conditions a renderer checks itself (temperature-sensor capability, empty
temperature data, the Windows load-average return) degrade to messages, and
any renderer exception propagates out of `main`, aborting the subsequent
sections: in particular a failure of the network-interface renderer is the
driver's result. -/
theorem driver_propagates_renderer_failure :
    ∀ (env : Env) (e : PyErr),
      show_network_interfacesE env = Except.error e →
      mainE env = Except.error e := by
  intro env e h
  obtain ⟨out, hcpu, -, -⟩ := show_cpu_never_fails env.platform_system
    env.cpu_count env.loadavg1 env.loadavg5 env.loadavg15 env.cpu_percents
  have hcpu' : show_cpuE env = Except.ok out := hcpu
  simp only [mainE, hcpu', exceptBind_ok, h, exceptBind_error]

/-- C8 witness: the amended propagation applied at `env0`. -/
theorem driver_propagates_renderer_failure_witness :
    mainE env0 = Except.error PyErr.keyError :=
  driver_propagates_renderer_failure env0 PyErr.keyError (by decide)

/-- C9: with no sessions the users renderer prints a notice and no table;
with exactly one session a single summary line, labelling the terminal
"console" when host and terminal are both absent; with two or more sessions
a table with exactly one row per session whose duration cell is blank when
the start time is unknown. -/
theorem logged_in_users_spec :
    (∀ (nt : ℚ → String) (now : ℚ),
        show_logged_in_user nt now [] = UsersOutput.notice "No users logged in.")
    ∧ (∀ (nt : ℚ → String) (now : ℚ) (u : UserSession),
        show_logged_in_user nt now [u] = UsersOutput.single (userLine nt now u))
    ∧ (∀ (nt : ℚ → String) (now : ℚ) (u : UserSession),
        pyTruthy u.host = false → pyTruthy u.terminal = false →
        userLine nt now u
          = pyStr u.name ++ " on " ++ "console" ++ " for "
            ++ startedText nt now u.started)
    ∧ (∀ (nt : ℚ → String) (now : ℚ) (us : List UserSession),
        2 ≤ us.length →
        ∃ rows, show_logged_in_user nt now us = UsersOutput.table rows
          ∧ rows.length = us.length
          ∧ ∀ (i : ℕ) (h1 : i < rows.length) (h2 : i < us.length),
              (us.get ⟨i, h2⟩).started = none →
              (rows.get ⟨i, h1⟩).duration = "") := by
  refine ⟨fun nt now => rfl, fun nt now u => rfl, ?_, ?_⟩
  · intro nt now u hhost hterm
    simp [userLine, hhost, pyOrElse_of_falsy u.terminal "console" hterm]
  · intro nt now us hlen
    match us with
    | [] => exact absurd hlen (by simp)
    | [u] => exact absurd hlen (by simp)
    | u :: v :: rest =>
      refine ⟨(u :: v :: rest).map (userRow nt now), rfl, by simp, ?_⟩
      intro i h1 h2 hst
      simp only [List.get_eq_getElem] at hst ⊢
      simp only [List.getElem_map]
      simp [userRow, startedText, hst]

/-- C9 witness: the console labelling and the two-session table applied at
concrete sessions. -/
theorem logged_in_users_spec_witness :
    (userLine (fun _ => "just now") 0 ⟨some "carol", none, none, none⟩
        = pyStr (some "carol") ++ " on " ++ "console" ++ " for "
          ++ startedText (fun _ => "just now") 0 none)
    ∧ (∃ rows, show_logged_in_user (fun _ => "just now") 0 [user1, user2]
          = UsersOutput.table rows
        ∧ rows.length = ([user1, user2] : List UserSession).length
        ∧ ∀ (i : ℕ) (h1 : i < rows.length)
            (h2 : i < ([user1, user2] : List UserSession).length),
            (([user1, user2] : List UserSession).get ⟨i, h2⟩).started = none →
            (rows.get ⟨i, h1⟩).duration = "") :=
  ⟨logged_in_users_spec.2.2.1 (fun _ => "just now") 0
      ⟨some "carol", none, none, none⟩ rfl rfl,
   logged_in_users_spec.2.2.2 (fun _ => "just now") 0 [user1, user2]
      (by decide)⟩

/-- C10: the CPU renderer substitutes a core count of 1 when the logical-core
query returns `None` or 0, so the count is always positive and each
load-average division is well defined — it never raises a divide-by-zero
error. -/
theorem cpu_count_fallback_spec :
    (∀ c : Option ℕ, 0 < effectiveCpuCount c)
    ∧ effectiveCpuCount none = 1
    ∧ effectiveCpuCount (some 0) = 1
    ∧ (∀ (c : Option ℕ) (x : ℚ),
        pyDiv x ((effectiveCpuCount c : ℕ) : ℚ)
          = Except.ok (x / ((effectiveCpuCount c : ℕ) : ℚ)))
    ∧ (∀ env : Env, ∃ out, show_cpuE env = Except.ok out) := by
  refine ⟨effectiveCpuCount_pos, rfl, rfl, ?_, ?_⟩
  · intro c x
    have h0 : ((effectiveCpuCount c : ℕ) : ℚ) ≠ 0 :=
      Nat.cast_ne_zero.mpr (Nat.pos_iff_ne_zero.mp (effectiveCpuCount_pos c))
    simp [pyDiv, h0]
  · intro env
    obtain ⟨out, h, -, -⟩ := show_cpu_never_fails env.platform_system
      env.cpu_count env.loadavg1 env.loadavg5 env.loadavg15 env.cpu_percents
    exact ⟨out, h⟩

end Minifetch
